import Mathlib

/-!
Shallow embedding of `king_phisher/client/tabs/campaign.py` and proofs about
the campaign-view tab logic: staleness-debounced loads, loader threads,
row formatting, teardown guards and tab construction.
-/

set_option autoImplicit false

namespace Campaign

/-- A Python float time value as used for `last_load_time`: either the initial
`float('-inf')` or a finite timestamp (in seconds). -/
inductive LoadTime where
  | negInf : LoadTime
  | fin : Int → LoadTime
deriving DecidableEq, Repr

/-- The test `(time.time() - self.last_load_time) < self.refresh_frequency`:
with `last_load_time = float('-inf')` the difference is `+inf`, so the
comparison is false. -/
def isFresh (now : Int) (last : LoadTime) (freq : Int) : Bool :=
  match last with
  | .negInf => false
  | .fin t => decide (now - t < freq)

/-- A cell value of a formatted row before stringification: Python `None`,
an integer, or a string.  The loader maps `'' if x == None else str(x)`. -/
inductive Cell where
  | null : Cell
  | int (n : Int) : Cell
  | str (s : String) : Cell
deriving DecidableEq, Repr

/-- `'' if x == None else str(x)` from `row_loader_thread_routine`. -/
def cellToStr : Cell → String
  | .null => ""
  | .int n => toString n
  | .str s => s

/-- State of a `CampaignViewGenericTab`: the fields of the Python object that
the claims are about.  `rowLoaderThreadAlive` models
`isinstance(self.row_loader_thread, threading.Thread) and self.row_loader_thread.is_alive()`;
`store` is the `Gtk.ListStore` contents (`none` = `treeview.get_model()` is `None`). -/
structure GenericTab where
  lastLoadTime : LoadTime
  refreshFrequency : Int
  rowLoaderThreadAlive : Bool
  isDestroyed : Bool
  store : Option (List (List String))
  remoteTableName : String
deriving DecidableEq, Repr

/-- `CampaignViewGenericTab.__init__` field initialisation:
`last_load_time = float('-inf')`, no loader thread, destroy event clear,
no model set on the treeview yet. -/
def GenericTab.init (table : String) (freq : Int) : GenericTab :=
  { lastLoadTime := .negInf
    refreshFrequency := freq
    rowLoaderThreadAlive := false
    isDestroyed := false
    store := none
    remoteTableName := table }

/-- The body of `CampaignViewGenericTab.load_campaign_information` after the
staleness check: the thread-alive early return, then (under the lock) store
creation or clearing and the creation and start of the loader thread.
Returns the new state and whether a loader thread was started. -/
def GenericTab.loadBody (s : GenericTab) : GenericTab × Bool :=
  if s.rowLoaderThreadAlive then (s, false)
  else
    ({ s with store := some [], rowLoaderThreadAlive := true }, true)

/-- `CampaignViewGenericTab.load_campaign_information(force)` at time `now`:
`if not force and ((time.time() - self.last_load_time) < self.refresh_frequency): return`,
then the body. -/
def GenericTab.load_campaign_information (s : GenericTab) (now : Int) (force : Bool) :
    GenericTab × Bool :=
  if !force && isFresh now s.lastLoadTime s.refreshFrequency then (s, false)
  else s.loadBody

/-- State of a `CampaignViewDashboardTab`.  `hasRpc` models
`hasattr(self.parent, 'rpc')`; `graphs` the names of the `CampaignGraph`
instances on the dash board. -/
structure DashboardTab where
  lastLoadTime : LoadTime
  refreshFrequency : Int
  loaderThreadAlive : Bool
  hasRpc : Bool
  graphs : List String
deriving DecidableEq, Repr

/-- The body of `CampaignViewDashboardTab.load_campaign_information` after the
staleness check: the rpc-attribute early return, then under
`self.loader_thread_lock` the thread-alive check and thread creation/start. -/
def DashboardTab.loadBody (s : DashboardTab) : DashboardTab × Bool :=
  if !s.hasRpc then (s, false)
  else if s.loaderThreadAlive then (s, false)
  else ({ s with loaderThreadAlive := true }, true)

/-- `CampaignViewDashboardTab.load_campaign_information(force)` at time `now`. -/
def DashboardTab.load_campaign_information (s : DashboardTab) (now : Int) (force : Bool) :
    DashboardTab × Bool :=
  if !force && isFresh now s.lastLoadTime s.refreshFrequency then (s, false)
  else s.loadBody

/-- An effect performed by the loader routines and the GUI handlers. -/
inductive Action where
  | guiSetSensitive (b : Bool) : Action
  | rpcFetchTable (table : String) : Action
  | rpcDelete (table : String) (rowId : Int) : Action
  | guiAppend (row : List String) : Action
  | guiGraphRefresh (graph : String) : Action
  | showWarning (msg : String) : Action
  | fileWrite (path : String) : Action
deriving DecidableEq, Repr

/-- How an effect is executed by the worker thread: directly, or marshaled
onto the GUI main loop through `gui_utilities.glib_idle_add_wait`. -/
inductive Exec where
  | onWorker (a : Action) : Exec
  | viaIdleAddWait (a : Action) : Exec
deriving DecidableEq, Repr

/-- The underlying effect of an executed step. -/
def Exec.act : Exec → Action
  | .onWorker a => a
  | .viaIdleAddWait a => a

/-- Whether the step went through `glib_idle_add_wait`. -/
def Exec.marshaled : Exec → Bool
  | .onWorker _ => false
  | .viaIdleAddWait _ => true

/-- The GUI-state mutations performed during a load: disabling/enabling the
treeview, appending a row to the store, refreshing a dashboard graph. -/
def Action.isGuiMutation : Action → Bool
  | .guiSetSensitive _ => true
  | .guiAppend _ => true
  | .guiGraphRefresh _ => true
  | _ => false

/-- The remote-procedure calls performed during a load. -/
def Action.isRpc : Action → Bool
  | .rpcFetchTable _ => true
  | .rpcDelete _ _ => true
  | _ => false

/-- The `for row_data in self.parent.rpc.remote_table(...)` loop of
`CampaignViewGenericTab.row_loader_thread_routine`, over fetched rows of an
abstract row type `α` with id projection `rid` and per-tab `format_row_data`
`fmt`.  `destroyed k` is the value `self.is_destroyed.is_set()` would read at
iteration `k`.  Returns the executed steps and whether the loop ran to
completion (`false` = early return on the destroy check). -/
def routineLoop {α : Type} (table : String) (fmt : α → Option (List Cell))
    (rid : α → Int) (destroyed : Nat → Bool) : List α → Nat → List Exec × Bool
  | [], _ => ([], true)
  | r :: rs, k =>
    match fmt r with
    | none =>
      let rest := routineLoop table fmt rid destroyed rs (k + 1)
      (Exec.onWorker (.rpcDelete table (rid r)) :: rest.1, rest.2)
    | some cells =>
      if destroyed k then ([], false)
      else
        let rest := routineLoop table fmt rid destroyed rs (k + 1)
        (Exec.viaIdleAddWait (.guiAppend (toString (rid r) :: cells.map cellToStr)) :: rest.1,
          rest.2)

/-- The rows appended to the store by an executed step sequence. -/
def appendedRows (es : List Exec) : List (List String) :=
  es.filterMap fun e =>
    match e with
    | .viaIdleAddWait (.guiAppend r) => some r
    | _ => none

/-- The row ids deleted over RPC by an executed step sequence. -/
def deletedIds (es : List Exec) : List Int :=
  es.filterMap fun e =>
    match e with
    | .onWorker (.rpcDelete _ i) => some i
    | _ => none

/-- `CampaignViewGenericTab.row_loader_thread_routine`: disable the treeview
(marshaled), fetch the remote table rows on the worker thread, run the loop,
and on completion re-enable the treeview (marshaled) and set
`last_load_time = time.time()`.  An early return on the destroy check leaves
`last_load_time` untouched.  The routine ending means the thread dies. -/
def GenericTab.row_loader_thread_routine {α : Type} (s : GenericTab)
    (fmt : α → Option (List Cell)) (rid : α → Int) (destroyed : Nat → Bool)
    (rows : List α) (now : Int) : GenericTab × List Exec :=
  let pre : List Exec :=
    [Exec.viaIdleAddWait (.guiSetSensitive false),
     Exec.onWorker (.rpcFetchTable ("campaign/" ++ s.remoteTableName))]
  let res := routineLoop s.remoteTableName fmt rid destroyed rows 0
  let stored := some ((s.store.getD []) ++ appendedRows res.1)
  if res.2 then
    ({ s with store := stored, rowLoaderThreadAlive := false, lastLoadTime := .fin now },
      pre ++ res.1 ++ [Exec.viaIdleAddWait (.guiSetSensitive true)])
  else
    ({ s with store := stored, rowLoaderThreadAlive := false }, pre ++ res.1)

/-- `CampaignViewDashboardTab.loader_thread_routine`: refresh every graph
through `glib_idle_add_wait`, then set `last_load_time = time.time()`. -/
def DashboardTab.loader_thread_routine (s : DashboardTab) (now : Int) :
    DashboardTab × List Exec :=
  ({ s with lastLoadTime := .fin now, loaderThreadAlive := false },
    s.graphs.map fun g => Exec.viaIdleAddWait (.guiGraphRefresh g))

/-- `CampaignViewGenericTab.signal_destroy`: set the `is_destroyed` event,
then join the loader thread when one is alive.  Returns the new state and
whether a join was performed. -/
def GenericTab.signal_destroy (s : GenericTab) : GenericTab × Bool :=
  let s' := { s with isDestroyed := true }
  if s'.rowLoaderThreadAlive then (s', true) else (s', false)

/-- A row of the remote `deaddrop_connections` table, with the fields read by
`CampaignViewDeaddropTab.format_row_data`. -/
structure DeaddropConnection where
  deployment_id : Int
  visit_count : Int
  visitor_ip : String
  local_username : String
  local_hostname : String
  local_ip_addresses : String
  first_visit : String
  last_visit : String
deriving DecidableEq, Repr

/-- A row of the `deaddrop_deployments` table, with the field read by
`CampaignViewDeaddropTab.format_row_data`. -/
structure DeaddropDeployment where
  destination : String
deriving DecidableEq, Repr

/-- A row of the remote `credentials` table, with the fields read by
`CampaignViewCredentialsTab.format_row_data`. -/
structure Credential where
  message_id : Int
  username : String
  password : String
  submitted : String
deriving DecidableEq, Repr

/-- A row of the `messages` table, with the field read by
`CampaignViewCredentialsTab.format_row_data`. -/
structure MessageDetails where
  target_email : String
deriving DecidableEq, Repr

/-- `CampaignViewDeaddropTab.format_row_data`: look up the referenced
deployment over `rpc.remote_table_row('deaddrop_deployments', deploy_id)`;
when it cannot be retrieved return `None`, otherwise the formatted row.
`format_datetime` stands for `utilities.format_datetime`. -/
def CampaignViewDeaddropTab.format_row_data
    (remote_table_row : Int → Option DeaddropDeployment)
    (format_datetime : String → String)
    (connection : DeaddropConnection) : Option (List Cell) :=
  match remote_table_row connection.deployment_id with
  | none => none
  | some deploy_details =>
    some [Cell.str deploy_details.destination,
      Cell.int connection.visit_count,
      Cell.str connection.visitor_ip,
      Cell.str connection.local_username,
      Cell.str connection.local_hostname,
      Cell.str connection.local_ip_addresses,
      Cell.str (format_datetime connection.first_visit),
      Cell.str (format_datetime connection.last_visit)]

/-- `CampaignViewCredentialsTab.format_row_data`: look up the referenced
message over `rpc.remote_table_row('messages', msg_id)`; when it cannot be
retrieved return `None`, otherwise the formatted row. -/
def CampaignViewCredentialsTab.format_row_data
    (remote_table_row : Int → Option MessageDetails)
    (format_datetime : String → String)
    (credential : Credential) : Option (List Cell) :=
  match remote_table_row credential.message_id with
  | none => none
  | some msg_details =>
    some [Cell.str msg_details.target_email,
      Cell.str credential.username,
      Cell.str credential.password,
      Cell.str (format_datetime credential.submitted)]

/-- `CampaignViewDashboardTab.loader_idle_routine`: call
`load_campaign_information(force=True)` and return `True` so that the GLib
timeout keeps repeating. -/
def DashboardTab.loader_idle_routine (s : DashboardTab) (now : Int) :
    (DashboardTab × Bool) × Bool :=
  (s.load_campaign_information now true, true)

/-- `CampaignViewDashboardTab.__init__`: initial field values, and the call
`GLib.timeout_add_seconds(self.refresh_frequency, self.loader_idle_routine)`,
returned as the registered period together with the registered handler. -/
def DashboardTab.init (freq : Int) (hasRpc : Bool) (graphs : List String) :
    DashboardTab × (Int × (DashboardTab → Int → (DashboardTab × Bool) × Bool)) :=
  let s : DashboardTab :=
    { lastLoadTime := .negInf
      refreshFrequency := freq
      loaderThreadAlive := false
      hasRpc := hasRpc
      graphs := graphs }
  (s, (s.refreshFrequency, DashboardTab.loader_idle_routine))

/-- `CampaignViewGenericTab._prompt_to_delete_row`: warn and bail while the
loader thread is alive; otherwise, with a selected row and a confirmed
dialog, issue the delete RPC for that row id on the tab's remote table and
force a reload.  Returns the new state and the effects performed. -/
def GenericTab.prompt_to_delete_row (s : GenericTab) (selectedRowId : Option Int)
    (confirmed : Bool) (now : Int) : GenericTab × List Action :=
  if s.rowLoaderThreadAlive then
    (s, [.showWarning "Can Not Delete Rows While Loading"])
  else
    match selectedRowId with
    | none => (s, [])
    | some rowId =>
      if !confirmed then (s, [])
      else
        ((s.load_campaign_information now true).1,
          [.rpcDelete s.remoteTableName rowId])

/-- `CampaignViewGenericTab.signal_button_clicked_export`: warn and bail
while the loader thread is alive; otherwise run the save dialog and, when it
returns a target path, write the CSV file there. -/
def GenericTab.signal_button_clicked_export (s : GenericTab)
    (dialogResponse : Option String) : GenericTab × List Action :=
  if s.rowLoaderThreadAlive then
    (s, [.showWarning "Can Not Export Rows While Loading"])
  else
    match dialogResponse with
    | none => (s, [])
    | some targetPath => (s, [.fileWrite targetPath])

/-- The tab classes instantiated by `CampaignViewTab.__init__`. -/
inductive TabClass where
  | dashboardTab : TabClass
  | messagesTab : TabClass
  | visitsTab : TabClass
  | credentialsTab : TabClass
  | deaddropTab : TabClass
deriving DecidableEq, Repr

/-- The `remote_table_name` class attribute of each tab class (`none` for the
dashboard, which has no remote table). -/
def TabClass.remote_table_name : TabClass → Option String
  | .dashboardTab => none
  | .messagesTab => some "messages"
  | .visitsTab => some "visits"
  | .credentialsTab => some "credentials"
  | .deaddropTab => some "deaddrop_connections"

/-- `CampaignViewTab.__init__`: the `self.tabs` dict in insertion order — the
dashboard sub-tab exactly when `graphs.has_matplotlib`, then the messages,
visits, credentials and dead-drop connection sub-tabs. -/
def CampaignViewTab.init_tabs (has_matplotlib : Bool) : List (String × TabClass) :=
  (if has_matplotlib then [("dashboard", TabClass.dashboardTab)] else [])
    ++ [("messages", TabClass.messagesTab),
      ("visits", TabClass.visitsTab),
      ("credentials", TabClass.credentialsTab),
      ("deaddrop_connections", TabClass.deaddropTab)]

/-- State of a `CampaignViewCredentialsTab`: the generic tab state plus the
visibility of the `Password` column renderer (`view_column_renderers[3]`). -/
structure CredentialsTab where
  generic : GenericTab
  passwordColumnVisible : Bool
deriving DecidableEq, Repr

/-- `CampaignViewCredentialsTab.__init__`: generic initialisation, then
`self.view_column_renderers[3].set_property('visible', False)`. -/
def CredentialsTab.init (freq : Int) : CredentialsTab :=
  { generic := GenericTab.init "credentials" freq
    passwordColumnVisible := false }

/-- `CampaignViewCredentialsTab.signal_button_toggled_show_passwords`: set
the renderer's visibility to the toggle button's `active` property. -/
def CredentialsTab.signal_button_toggled_show_passwords (s : CredentialsTab)
    (active : Bool) : CredentialsTab :=
  { s with passwordColumnVisible := active }

/-- The operations a `CampaignViewCredentialsTab` supports after
construction. -/
inductive CredOp where
  | load (now : Int) (force : Bool) : CredOp
  | promptDelete (selectedRowId : Option Int) (confirmed : Bool) (now : Int) : CredOp
  | exportCsv (dialogResponse : Option String) : CredOp
  | destroy : CredOp
  | toggleShowPasswords (active : Bool) : CredOp

/-- Apply one credentials-tab operation; every operation other than the
show-passwords toggle acts through the generic-tab code, which never touches
`view_column_renderers[3]`. -/
def CredentialsTab.applyOp (s : CredentialsTab) : CredOp → CredentialsTab
  | .load now force =>
    { s with generic := (s.generic.load_campaign_information now force).1 }
  | .promptDelete sel conf now =>
    { s with generic := (s.generic.prompt_to_delete_row sel conf now).1 }
  | .exportCsv resp =>
    { s with generic := (s.generic.signal_button_clicked_export resp).1 }
  | .destroy =>
    { s with generic := s.generic.signal_destroy.1 }
  | .toggleShowPasswords active => s.signal_button_toggled_show_passwords active

/-- Apply a sequence of credentials-tab operations in order. -/
def CredentialsTab.applyOps (s : CredentialsTab) (ops : List CredOp) : CredentialsTab :=
  ops.foldl CredentialsTab.applyOp s

/-- The `active` state of the last show-passwords toggle in an operation
sequence, starting from `acc`. -/
def lastToggleState : List CredOp → Bool → Bool
  | [], acc => acc
  | .toggleShowPasswords a :: rest, _ => lastToggleState rest a
  | _ :: rest, acc => lastToggleState rest acc

/-- The atomic steps of a `load_campaign_information` body, as executed by a
caller thread. -/
inductive LoadStep where
  | checkStale : LoadStep
  | checkRpc : LoadStep
  | checkAlive : LoadStep
  | acquireLock : LoadStep
  | setupStore : LoadStep
  | spawnThread : LoadStep
  | releaseLock : LoadStep
deriving DecidableEq, Repr

/-- `CampaignViewGenericTab.load_campaign_information` as a step sequence:
the staleness check, the thread-alive check, `row_loader_thread_lock.acquire()`,
the store creation/clearing, the thread creation and start, and
`row_loader_thread_lock.release()`. -/
def genericLoadProgram : List LoadStep :=
  [.checkStale, .checkAlive, .acquireLock, .setupStore, .spawnThread, .releaseLock]

/-- `CampaignViewDashboardTab.load_campaign_information` as a step sequence:
the staleness check, the rpc-attribute check, then `with self.loader_thread_lock:`
around the thread-alive check and the thread creation and start. -/
def dashboardLoadProgram : List LoadStep :=
  [.checkStale, .checkRpc, .acquireLock, .checkAlive, .spawnThread, .releaseLock]

/-- Whether the loader lock is held just before step `i` of a straight-line
run of the program: more acquires than releases among the first `i` steps. -/
def lockHeldAt (p : List LoadStep) (i : Nat) : Bool :=
  decide ((p.take i).count .releaseLock < (p.take i).count .acquireLock)

/-- The thread-already-running check and the creation and start of the new
thread are all performed while holding the loader lock. -/
def checkAndSpawnUnderLock (p : List LoadStep) : Bool :=
  (List.range p.length).all fun i =>
    match p.get? i with
    | some .checkAlive => lockHeldAt p i
    | some .spawnThread => lockHeldAt p i
    | _ => true

/-- The thread creation and start alone are performed under the lock. -/
def spawnUnderLock (p : List LoadStep) : Bool :=
  (List.range p.length).all fun i =>
    match p.get? i with
    | some .spawnThread => lockHeldAt p i
    | _ => true

/-- A caller thread executing a load program: its program counter and
whether it currently holds the loader lock. -/
structure Caller where
  pc : Nat
  holds : Bool
deriving DecidableEq, Repr

/-- Shared state of two caller threads (A and B) concurrently executing a
load program on the same tab: the aliveness of the thread currently
referenced by the loader-thread field, the total number of loader threads
alive (none of which has finished yet), and the loader lock. -/
structure MachineState where
  a : Caller
  b : Caller
  refAlive : Bool
  aliveCount : Nat
  lockHeld : Bool
deriving DecidableEq, Repr

/-- Execute one step of the program for one caller.  Staleness and rpc
checks pass (a forced call with rpc available).  `checkAlive` returns early
— releasing the lock when the caller holds it, as leaving a `with` block
does — when the referenced thread is alive.  `acquireLock` blocks while the
lock is held by the other caller.  `spawnThread` makes the referenced thread
a fresh alive thread. -/
def execStep (prog : List LoadStep) (c : Caller) (refAlive : Bool)
    (aliveCount : Nat) (lockHeld : Bool) : Caller × Bool × Nat × Bool :=
  match prog.get? c.pc with
  | none => (c, refAlive, aliveCount, lockHeld)
  | some step =>
    match step with
    | .checkStale => (⟨c.pc + 1, c.holds⟩, refAlive, aliveCount, lockHeld)
    | .checkRpc => (⟨c.pc + 1, c.holds⟩, refAlive, aliveCount, lockHeld)
    | .setupStore => (⟨c.pc + 1, c.holds⟩, refAlive, aliveCount, lockHeld)
    | .checkAlive =>
      if refAlive then
        (⟨prog.length, false⟩, refAlive, aliveCount, if c.holds then false else lockHeld)
      else (⟨c.pc + 1, c.holds⟩, refAlive, aliveCount, lockHeld)
    | .acquireLock =>
      if lockHeld then (c, refAlive, aliveCount, lockHeld)
      else (⟨c.pc + 1, true⟩, refAlive, aliveCount, true)
    | .spawnThread => (⟨c.pc + 1, c.holds⟩, true, aliveCount + 1, lockHeld)
    | .releaseLock => (⟨c.pc + 1, false⟩, refAlive, aliveCount, false)

/-- One scheduler step: run the chosen caller (`true` = A, `false` = B). -/
def stepMachine (prog : List LoadStep) (s : MachineState) (who : Bool) : MachineState :=
  if who then
    let r := execStep prog s.a s.refAlive s.aliveCount s.lockHeld
    ⟨r.1, s.b, r.2.1, r.2.2.1, r.2.2.2⟩
  else
    let r := execStep prog s.b s.refAlive s.aliveCount s.lockHeld
    ⟨s.a, r.1, r.2.1, r.2.2.1, r.2.2.2⟩

/-- Initial machine state: no loader thread yet, lock free, both callers at
the start of the program. -/
def initMachine : MachineState :=
  ⟨⟨0, false⟩, ⟨0, false⟩, false, 0, false⟩

/-- Run two concurrent callers of `load_campaign_information` under a given
interleaving schedule. -/
def runMachine (prog : List LoadStep) (sched : List Bool) : MachineState :=
  sched.foldl (stepMachine prog) initMachine

/-- In the dashboard load program, the positions a caller occupies while it
holds the loader lock (`3` = just acquired, up to `5` = about to release). -/
def inLockRegion (p : Nat) : Bool :=
  decide (3 ≤ p) && decide (p ≤ 5)

/-- Inductive invariant of two concurrent callers of the dashboard
`load_campaign_information`: lock discipline ties each caller's `holds` flag
to its position, at most one caller is in the locked region, a caller past
the alive-check but before the spawn has observed no alive thread, and the
number of alive loader threads matches the referenced thread's aliveness. -/
def DashInv (s : MachineState) : Prop :=
  s.a.pc ≤ 6 ∧ s.b.pc ≤ 6 ∧
  s.a.holds = inLockRegion s.a.pc ∧ s.b.holds = inLockRegion s.b.pc ∧
  s.lockHeld = (s.a.holds || s.b.holds) ∧
  (s.a.holds = true → s.b.holds = false) ∧
  (s.a.pc = 4 → s.refAlive = false) ∧
  (s.b.pc = 4 → s.refAlive = false) ∧
  (s.a.pc = 5 → s.refAlive = true) ∧
  (s.b.pc = 5 → s.refAlive = true) ∧
  s.aliveCount = (if s.refAlive then 1 else 0)

end Campaign

namespace Campaign

/-- C1: a non-forced `load_campaign_information` on either tab kind, called
when the elapsed time since `last_load_time` is strictly below
`refresh_frequency`, returns the state unchanged (store and `last_load_time`
untouched) and starts no loader thread; with `force=True` the staleness check
is skipped and the call behaves exactly as the post-check body. -/
theorem load_campaign_information_debounce
    (sg : GenericTab) (sd : DashboardTab) (now tg td : Int)
    (hg : sg.lastLoadTime = .fin tg) (hgf : now - tg < sg.refreshFrequency)
    (hd : sd.lastLoadTime = .fin td) (hdf : now - td < sd.refreshFrequency) :
    sg.load_campaign_information now false = (sg, false) ∧
    sd.load_campaign_information now false = (sd, false) ∧
    (∀ (s : GenericTab) (n : Int), s.load_campaign_information n true = s.loadBody) ∧
    (∀ (s : DashboardTab) (n : Int), s.load_campaign_information n true = s.loadBody) := by
  refine ⟨?_, ?_, ?_, ?_⟩
  · simp [GenericTab.load_campaign_information, isFresh, hg, hgf]
  · simp [DashboardTab.load_campaign_information, isFresh, hd, hdf]
  · intro s n
    simp [GenericTab.load_campaign_information]
  · intro s n
    simp [DashboardTab.load_campaign_information]

/-- Witness for `load_campaign_information_debounce` at a concrete fresh state. -/
theorem load_campaign_information_debounce_witness :
    (GenericTab.init "visits" 300 |>.lastLoadTime) = LoadTime.negInf ∧
    ({ GenericTab.init "visits" 300 with lastLoadTime := .fin 100 }).load_campaign_information 150 false
      = ({ GenericTab.init "visits" 300 with lastLoadTime := .fin 100 }, false) := by
  refine ⟨rfl, ?_⟩
  exact (load_campaign_information_debounce
    { GenericTab.init "visits" 300 with lastLoadTime := .fin 100 }
    { lastLoadTime := .fin 100, refreshFrequency := 300, loaderThreadAlive := false,
      hasRpc := true, graphs := [] }
    150 100 100 rfl (by decide) rfl (by decide)).1

/-- The inductive invariant holds in the initial two-caller machine state. -/
theorem dashInv_init : DashInv initMachine := by
  unfold DashInv initMachine inLockRegion
  decide

set_option maxHeartbeats 2000000 in
/-- The inductive invariant is preserved by every step of two concurrent
callers of the dashboard `load_campaign_information`. -/
theorem dashInv_step (s : MachineState) (who : Bool) (h : DashInv s) :
    DashInv (stepMachine dashboardLoadProgram s who) := by
  obtain ⟨⟨pa, ha⟩, ⟨pb, hb⟩, r, n, l⟩ := s
  obtain ⟨hpa, hpb, hha, hhb, hl, hmx, ha4, hb4, ha5, hb5, hn⟩ := h
  simp only at hpa hpb hha hhb hl hmx ha4 hb4 ha5 hb5 hn
  subst hha hhb hl
  cases r <;> simp only [if_true, if_false, Bool.false_eq_true, Bool.true_eq_false] at hn ha4 hb4 ha5 hb5 <;>
    subst hn <;>
    interval_cases pa <;> interval_cases pb <;> cases who <;>
    first
      | (unfold DashInv stepMachine execStep dashboardLoadProgram inLockRegion; decide)
      | (exfalso; simp_all [inLockRegion])

/-- Every interleaving of two callers of the dashboard
`load_campaign_information` stays inside the invariant. -/
theorem dashInv_run (sched : List Bool) :
    DashInv (runMachine dashboardLoadProgram sched) := by
  have main : ∀ (l : List Bool) (s : MachineState), DashInv s →
      DashInv (l.foldl (stepMachine dashboardLoadProgram) s) := by
    intro l
    induction l with
    | nil => intro s hs; exact hs
    | cons w ws ih =>
      intro s hs
      exact ih _ (dashInv_step s w hs)
  exact main sched initMachine dashInv_init

/-- Once the destroy flag reads true, the loader loop appends nothing more:
the flag is monotone (a `threading.Event` is never cleared) and is tested
right before each append. -/
theorem routineLoop_no_append_of_destroyed {α : Type} (table : String)
    (fmt : α → Option (List Cell)) (rid : α → Int) (destroyed : Nat → Bool)
    (hmono : ∀ i j, i ≤ j → destroyed i = true → destroyed j = true)
    (rows : List α) :
    ∀ (k : Nat), destroyed k = true →
      appendedRows (routineLoop table fmt rid destroyed rows k).1 = [] := by
  induction rows with
  | nil => intro k _; rfl
  | cons r rs ih =>
    intro k hk
    cases hf : fmt r with
    | none =>
      have ihk := ih (k + 1) (hmono k (k + 1) (Nat.le_succ k) hk)
      simp [routineLoop, hf, appendedRows, List.filterMap_cons] at ihk ⊢
      exact ihk
    | some cells =>
      simp [routineLoop, hf, hk, appendedRows]

/-- In an uninterrupted loop run, the deleted row ids are exactly the ids of
the rows whose formatting returned `None`. -/
theorem routineLoop_deletedIds_nodestroy {α : Type} (table : String)
    (fmt : α → Option (List Cell)) (rid : α → Int) (rows : List α) :
    ∀ (k : Nat),
      deletedIds (routineLoop table fmt rid (fun _ => false) rows k).1
        = (rows.filter fun r => (fmt r).isNone).map rid := by
  induction rows with
  | nil => intro k; rfl
  | cons r rs ih =>
    intro k
    cases hf : fmt r with
    | none =>
      simp [routineLoop, hf, deletedIds, List.filterMap_cons, List.filter_cons] at ih ⊢
      exact ih (k + 1)
    | some cells =>
      simp [routineLoop, hf, deletedIds, List.filterMap_cons, List.filter_cons] at ih ⊢
      exact ih (k + 1)

/-- In an uninterrupted loop run, the appended store rows are exactly the
stringified formatted rows, id first, of the rows whose formatting
succeeded. -/
theorem routineLoop_appendedRows_nodestroy {α : Type} (table : String)
    (fmt : α → Option (List Cell)) (rid : α → Int) (rows : List α) :
    ∀ (k : Nat),
      appendedRows (routineLoop table fmt rid (fun _ => false) rows k).1
        = ((rows.filter fun r => (fmt r).isSome).map
            fun r => toString (rid r) :: ((fmt r).getD []).map cellToStr) := by
  induction rows with
  | nil => intro k; rfl
  | cons r rs ih =>
    intro k
    cases hf : fmt r with
    | none =>
      simp [routineLoop, hf, appendedRows, List.filterMap_cons, List.filter_cons] at ih ⊢
      exact ih (k + 1)
    | some cells =>
      simp [routineLoop, hf, appendedRows, List.filterMap_cons, List.filter_cons] at ih ⊢
      exact ih (k + 1)

/-- Under any destroy-flag history, the loader loop only ever deletes ids of
rows whose formatting returned `None`. -/
theorem routineLoop_deletedIds_subset {α : Type} (table : String)
    (fmt : α → Option (List Cell)) (rid : α → Int) (destroyed : Nat → Bool)
    (rows : List α) :
    ∀ (k : Nat),
      deletedIds (routineLoop table fmt rid destroyed rows k).1
        ⊆ (rows.filter fun r => (fmt r).isNone).map rid := by
  induction rows with
  | nil => intro k; simp [routineLoop, deletedIds]
  | cons r rs ih =>
    intro k
    cases hf : fmt r with
    | none =>
      simp only [routineLoop, hf, deletedIds, List.filterMap_cons, List.filter_cons]
      simp only [Option.isNone_none, if_true, List.map_cons]
      exact List.cons_subset_cons _ (ih (k + 1))
    | some cells =>
      by_cases hd : destroyed k = true
      · simp [routineLoop, hf, hd, deletedIds]
      · simp only [Bool.not_eq_true] at hd
        simp only [routineLoop, hf, hd, deletedIds, List.filterMap_cons, List.filter_cons]
        simp only [Option.isNone_some, Bool.false_eq_true, if_false]
        exact ih (k + 1)

/-- Every step the loader loop executes respects the threading discipline:
GUI mutations are marshaled, RPC calls run directly on the worker. -/
theorem routineLoop_exec_discipline {α : Type} (table : String)
    (fmt : α → Option (List Cell)) (rid : α → Int) (destroyed : Nat → Bool)
    (rows : List α) :
    ∀ (k : Nat) (e : Exec), e ∈ (routineLoop table fmt rid destroyed rows k).1 →
      (e.act.isGuiMutation = true → e.marshaled = true) ∧
      (e.act.isRpc = true → e.marshaled = false) := by
  induction rows with
  | nil => intro k e he; simp [routineLoop] at he
  | cons r rs ih =>
    intro k e he
    cases hf : fmt r with
    | none =>
      simp only [routineLoop, hf] at he
      rcases List.mem_cons.mp he with h | h
      · subst h; exact ⟨fun h => by simp [Exec.act, Action.isGuiMutation] at h, fun _ => rfl⟩
      · exact ih (k + 1) e h
    | some cells =>
      simp only [routineLoop, hf] at he
      by_cases hd : destroyed k = true
      · simp [hd] at he
      · simp only [Bool.not_eq_true] at hd
        simp only [hd, Bool.false_eq_true, if_false] at he
        rcases List.mem_cons.mp he with h | h
        · subst h; exact ⟨fun _ => rfl, fun h => by simp [Exec.act, Action.isRpc] at h⟩
        · exact ih (k + 1) e h

/-- C2 counterexample: in `CampaignViewGenericTab.load_campaign_information`
the thread-already-running check is not performed while holding the loader
lock, and with two concurrent callers there is an interleaving (both pass the
alive-check before either acquires the lock) after which two loader threads
of the same tab are alive at once. -/
theorem generic_load_race_counterexample :
    checkAndSpawnUnderLock genericLoadProgram = false ∧
    (runMachine genericLoadProgram
      [true, true, false, false, true, true, true, true,
        false, false, false, false]).aliveCount = 2 := by
  constructor <;> decide

/-- C2 amended: in the dashboard tab the thread-already-running check and the
thread creation/start are all performed under the loader lock, and under any
interleaving of two callers at most one dashboard loader thread is alive; in
the generic tab only the store setup and thread creation/start are under the
lock — the alive-check at step 1 runs with the lock free — and a sequential
call made while the tab's loader thread is alive returns without spawning. -/
theorem loader_thread_exclusion
    (s : GenericTab) (sd : DashboardTab) (now : Int) (force : Bool)
    (hal : s.rowLoaderThreadAlive = true) (hald : sd.loaderThreadAlive = true) :
    checkAndSpawnUnderLock dashboardLoadProgram = true ∧
    spawnUnderLock genericLoadProgram = true ∧
    lockHeldAt genericLoadProgram 1 = false ∧
    genericLoadProgram.get? 1 = some LoadStep.checkAlive ∧
    s.load_campaign_information now force = (s, false) ∧
    sd.load_campaign_information now force = (sd, false) ∧
    (∀ sched : List Bool, (runMachine dashboardLoadProgram sched).aliveCount ≤ 1) := by
  refine ⟨by decide, by decide, by decide, by decide, ?_, ?_, ?_⟩
  · unfold GenericTab.load_campaign_information GenericTab.loadBody
    rw [hal]
    simp
  · unfold DashboardTab.load_campaign_information DashboardTab.loadBody
    rw [hald]
    simp
  · intro sched
    have h := dashInv_run sched
    obtain ⟨-, -, -, -, -, -, -, -, -, -, hn⟩ := h
    rw [hn]
    cases (runMachine dashboardLoadProgram sched).refAlive <;> simp

/-- Witness for `loader_thread_exclusion`: a concrete tab with an alive
loader thread refuses to spawn another. -/
theorem loader_thread_exclusion_witness :
    ({ GenericTab.init "visits" 300 with rowLoaderThreadAlive := true
        : GenericTab }).load_campaign_information 10 true
      = ({ GenericTab.init "visits" 300 with rowLoaderThreadAlive := true }, false) :=
  (loader_thread_exclusion
    { GenericTab.init "visits" 300 with rowLoaderThreadAlive := true }
    { lastLoadTime := .negInf, refreshFrequency := 300, loaderThreadAlive := true,
      hasRpc := true, graphs := [] }
    10 true rfl rfl).2.2.2.2.1

/-- C3: once the destroy event is set (it is monotone, as `threading.Event`
is never cleared by this code), `row_loader_thread_routine` appends no
further row to the store — the flag is tested before each append and the
routine returns when it is set — and `signal_destroy` sets the event and
joins the loader thread exactly when one is alive. -/
theorem destroy_halts_appends {α : Type} (table : String)
    (fmt : α → Option (List Cell)) (rid : α → Int) (destroyed : Nat → Bool)
    (hmono : ∀ i j, i ≤ j → destroyed i = true → destroyed j = true)
    (rows : List α) (k : Nat) (hk : destroyed k = true) :
    appendedRows (routineLoop table fmt rid destroyed rows k).1 = [] ∧
    (∀ s : GenericTab, s.signal_destroy.1.isDestroyed = true ∧
      s.signal_destroy.2 = s.rowLoaderThreadAlive) := by
  refine ⟨routineLoop_no_append_of_destroyed table fmt rid destroyed hmono rows k hk, ?_⟩
  intro s
  unfold GenericTab.signal_destroy
  cases h : s.rowLoaderThreadAlive <;> simp [h]

/-- Witness for `destroy_halts_appends`: with the destroy flag set from the
start, a two-row load appends nothing. -/
theorem destroy_halts_appends_witness :
    appendedRows (routineLoop "visits" (fun n : Int => some [Cell.int n]) id
      (fun _ => true) [3, 4] 0).1 = [] := by
  have h := destroy_halts_appends "visits" (fun n : Int => some [Cell.int n]) id
    (fun _ => true) (fun _ _ _ _ => rfl) [3, 4] 0 rfl
  exact h.1

/-- C4: `last_load_time` is initialised to `float('-inf')`, so the first
non-forced load passes the staleness check; the loader routine sets it to
the current time exactly when the loop ran to completion, and leaves it
unchanged on an early destroy return; the dashboard loader routine sets it
after refreshing all graphs. -/
theorem last_load_time_lifecycle
    (α : Type) (s : GenericTab) (fmt : α → Option (List Cell)) (rid : α → Int)
    (destroyed : Nat → Bool) (rows : List α) (now : Int)
    (table : String) (freq : Int) (sd : DashboardTab) :
    (GenericTab.init table freq).lastLoadTime = LoadTime.negInf ∧
    (∀ n : Int, (GenericTab.init table freq).load_campaign_information n false
        = (GenericTab.init table freq).loadBody) ∧
    ((routineLoop s.remoteTableName fmt rid destroyed rows 0).2 = true →
      (s.row_loader_thread_routine fmt rid destroyed rows now).1.lastLoadTime
        = LoadTime.fin now) ∧
    ((routineLoop s.remoteTableName fmt rid destroyed rows 0).2 = false →
      (s.row_loader_thread_routine fmt rid destroyed rows now).1.lastLoadTime
        = s.lastLoadTime) ∧
    (sd.loader_thread_routine now).1.lastLoadTime = LoadTime.fin now := by
  refine ⟨rfl, ?_, ?_, ?_, rfl⟩
  · intro n
    simp [GenericTab.load_campaign_information, GenericTab.init, isFresh]
  · intro hc
    simp [GenericTab.row_loader_thread_routine, hc]
  · intro hc
    simp [GenericTab.row_loader_thread_routine, hc]

/-- Witness for `last_load_time_lifecycle`: a completed one-row load stamps
the load time. -/
theorem last_load_time_lifecycle_witness :
    ((GenericTab.init "messages" 300).row_loader_thread_routine
      (fun n : Int => some [Cell.int n]) id (fun _ => false) [7] 50).1.lastLoadTime
      = LoadTime.fin 50 := by
  have h := last_load_time_lifecycle Int (GenericTab.init "messages" 300)
    (fun n : Int => some [Cell.int n]) id (fun _ => false) [7] 50 "messages" 300
    { lastLoadTime := .negInf, refreshFrequency := 300, loaderThreadAlive := false,
      hasRpc := true, graphs := [] }
  exact h.2.2.1 rfl

/-- C5: the dashboard constructor registers a `GLib.timeout_add_seconds`
timeout whose period is `refresh_frequency` and whose handler is
`loader_idle_routine`; the handler calls `load_campaign_information` with
`force=True` — which skips the staleness check — and returns `True` so the
timer repeats. -/
theorem dashboard_timer_registration (freq : Int) (hasRpc : Bool) (graphNames : List String) :
    (DashboardTab.init freq hasRpc graphNames).2.1
      = (DashboardTab.init freq hasRpc graphNames).1.refreshFrequency ∧
    (DashboardTab.init freq hasRpc graphNames).2.2 = DashboardTab.loader_idle_routine ∧
    (∀ (s : DashboardTab) (now : Int),
      s.loader_idle_routine now = (s.load_campaign_information now true, true)) ∧
    (∀ (s : DashboardTab) (now : Int),
      s.load_campaign_information now true = s.loadBody) := by
  refine ⟨rfl, rfl, fun s now => rfl, fun s now => ?_⟩
  simp [DashboardTab.load_campaign_information]

/-- C6: while the loader thread is alive, row deletion and CSV export show a
warning dialog and do nothing else (no delete RPC, no file written);
otherwise deleting a selected and confirmed row issues the delete RPC for
that row id on the tab's remote table and forces a reload. -/
theorem delete_export_loading_guard (s : GenericTab) (now rowId : Int)
    (resp : Option String) :
    (s.rowLoaderThreadAlive = true →
      (∀ (sel : Option Int) (conf : Bool), s.prompt_to_delete_row sel conf now
          = (s, [Action.showWarning "Can Not Delete Rows While Loading"])) ∧
      s.signal_button_clicked_export resp
        = (s, [Action.showWarning "Can Not Export Rows While Loading"])) ∧
    (s.rowLoaderThreadAlive = false →
      s.prompt_to_delete_row (some rowId) true now
        = ((s.load_campaign_information now true).1,
            [Action.rpcDelete s.remoteTableName rowId])) := by
  constructor
  · intro hal
    refine ⟨fun sel conf => ?_, ?_⟩
    · simp [GenericTab.prompt_to_delete_row, hal]
    · simp [GenericTab.signal_button_clicked_export, hal]
  · intro hal
    simp [GenericTab.prompt_to_delete_row, hal]

/-- Witness for `delete_export_loading_guard` on concrete loading and idle
states. -/
theorem delete_export_loading_guard_witness :
    ({ GenericTab.init "visits" 300 with rowLoaderThreadAlive := true
        : GenericTab }).signal_button_clicked_export (some "out.csv")
      = ({ GenericTab.init "visits" 300 with rowLoaderThreadAlive := true },
          [Action.showWarning "Can Not Export Rows While Loading"]) ∧
    (GenericTab.init "visits" 300).prompt_to_delete_row (some 9) true 10
      = (((GenericTab.init "visits" 300).load_campaign_information 10 true).1,
          [Action.rpcDelete "visits" 9]) := by
  constructor
  · exact ((delete_export_loading_guard
      { GenericTab.init "visits" 300 with rowLoaderThreadAlive := true }
      10 9 (some "out.csv")).1 rfl).2
  · exact (delete_export_loading_guard (GenericTab.init "visits" 300)
      10 9 (some "out.csv")).2 rfl

/-- C7: `CampaignViewTab.__init__` always creates the messages, visits,
credentials and dead-drop sub-tabs, bound to the remote tables `messages`,
`visits`, `credentials` and `deaddrop_connections`, and creates the
dashboard sub-tab exactly when matplotlib is available; `self.tabs`
contains exactly these entries. -/
theorem campaign_view_tab_composition (m : Bool) :
    (CampaignViewTab.init_tabs m).map Prod.fst
      = (if m then ["dashboard"] else [])
        ++ ["messages", "visits", "credentials", "deaddrop_connections"] ∧
    ((("dashboard", TabClass.dashboardTab) ∈ CampaignViewTab.init_tabs m) ↔ m = true) ∧
    (CampaignViewTab.init_tabs m).lookup "messages" = some TabClass.messagesTab ∧
    (CampaignViewTab.init_tabs m).lookup "visits" = some TabClass.visitsTab ∧
    (CampaignViewTab.init_tabs m).lookup "credentials" = some TabClass.credentialsTab ∧
    (CampaignViewTab.init_tabs m).lookup "deaddrop_connections" = some TabClass.deaddropTab ∧
    TabClass.remote_table_name TabClass.messagesTab = some "messages" ∧
    TabClass.remote_table_name TabClass.visitsTab = some "visits" ∧
    TabClass.remote_table_name TabClass.credentialsTab = some "credentials" ∧
    TabClass.remote_table_name TabClass.deaddropTab = some "deaddrop_connections" := by
  cases m <;> decide

/-- C8: every step executed by `row_loader_thread_routine` and by the
dashboard `loader_thread_routine` respects the threading discipline — each
GUI-state mutation (treeview sensitivity, store append, graph refresh) goes
through `glib_idle_add_wait`, and each RPC runs directly on the worker
thread. -/
theorem gui_mutations_marshaled
    (α : Type) (s : GenericTab) (fmt : α → Option (List Cell)) (rid : α → Int)
    (destroyed : Nat → Bool) (rows : List α) (now : Int) (sd : DashboardTab) (e f : Exec)
    (he : e ∈ (s.row_loader_thread_routine fmt rid destroyed rows now).2)
    (hf : f ∈ (sd.loader_thread_routine now).2) :
    ((e.act.isGuiMutation = true → e.marshaled = true) ∧
      (e.act.isRpc = true → e.marshaled = false)) ∧
    f.act.isGuiMutation = true ∧ f.marshaled = true := by
  constructor
  · have hpre : ∀ g : Exec,
        g ∈ ([Exec.viaIdleAddWait (Action.guiSetSensitive false),
          Exec.onWorker (Action.rpcFetchTable ("campaign/" ++ s.remoteTableName))] : List Exec) →
        (g.act.isGuiMutation = true → g.marshaled = true) ∧
        (g.act.isRpc = true → g.marshaled = false) := by
      intro g hg
      rcases List.mem_cons.mp hg with h | h
      · subst h
        exact ⟨fun _ => rfl, fun hr => by simp [Exec.act, Action.isRpc] at hr⟩
      · rcases List.mem_cons.mp h with h2 | h2
        · subst h2
          exact ⟨fun hgm => by simp [Exec.act, Action.isGuiMutation] at hgm, fun _ => rfl⟩
        · simp at h2
    unfold GenericTab.row_loader_thread_routine at he
    by_cases hc : (routineLoop s.remoteTableName fmt rid destroyed rows 0).2 = true
    · simp only [hc, if_true] at he
      rcases List.mem_append.mp he with h1 | h1
      · rcases List.mem_append.mp h1 with h2 | h2
        · exact hpre e h2
        · exact routineLoop_exec_discipline s.remoteTableName fmt rid destroyed rows 0 e h2
      · rcases List.mem_cons.mp h1 with h2 | h2
        · subst h2
          exact ⟨fun _ => rfl, fun hr => by simp [Exec.act, Action.isRpc] at hr⟩
        · simp at h2
    · simp only [Bool.not_eq_true] at hc
      simp only [hc, Bool.false_eq_true, if_false] at he
      rcases List.mem_append.mp he with h1 | h1
      · exact hpre e h1
      · exact routineLoop_exec_discipline s.remoteTableName fmt rid destroyed rows 0 e h1
  · unfold DashboardTab.loader_thread_routine at hf
    simp only [List.mem_map] at hf
    obtain ⟨g, -, hg⟩ := hf
    subst hg
    exact ⟨rfl, rfl⟩

/-- Witness for `gui_mutations_marshaled` on a concrete one-row load and a
one-graph dashboard refresh. -/
theorem gui_mutations_marshaled_witness :
    (Exec.onWorker (Action.rpcFetchTable "campaign/visits")).marshaled = false ∧
    (Exec.viaIdleAddWait (Action.guiGraphRefresh "overview")).marshaled = true := by
  have h := gui_mutations_marshaled Int (GenericTab.init "visits" 300)
    (fun n : Int => some [Cell.int n]) id (fun _ => false) [7] 50
    { lastLoadTime := .negInf, refreshFrequency := 300, loaderThreadAlive := false,
      hasRpc := true, graphs := ["overview"] }
    (Exec.onWorker (Action.rpcFetchTable "campaign/visits"))
    (Exec.viaIdleAddWait (Action.guiGraphRefresh "overview"))
    (by decide) (by decide)
  exact ⟨h.1.2 rfl, h.2.2⟩

/-- C9: `format_row_data` of the dead-drop and credentials tabs returns
`None` exactly when the referenced deployment or message row cannot be
retrieved; during a load the loop issues a delete RPC exactly for the rows
whose formatting returned `None` and appends exactly the others, and under
any destroy history only unformattable rows are ever deleted. -/
theorem loader_deletes_unformattable_rows :
    (∀ (lk : Int → Option DeaddropDeployment) (fd : String → String)
        (c : DeaddropConnection),
      CampaignViewDeaddropTab.format_row_data lk fd c = none
        ↔ lk c.deployment_id = none) ∧
    (∀ (lk : Int → Option MessageDetails) (fd : String → String) (cr : Credential),
      CampaignViewCredentialsTab.format_row_data lk fd cr = none
        ↔ lk cr.message_id = none) ∧
    (∀ (α : Type) (table : String) (fmt : α → Option (List Cell)) (rid : α → Int)
        (rows : List α),
      deletedIds (routineLoop table fmt rid (fun _ => false) rows 0).1
        = ((rows.filter fun r => (fmt r).isNone).map rid) ∧
      appendedRows (routineLoop table fmt rid (fun _ => false) rows 0).1
        = ((rows.filter fun r => (fmt r).isSome).map
            fun r => toString (rid r) :: ((fmt r).getD []).map cellToStr) ∧
      ∀ (destroyed : Nat → Bool) (k : Nat),
        deletedIds (routineLoop table fmt rid destroyed rows k).1
          ⊆ ((rows.filter fun r => (fmt r).isNone).map rid)) := by
  refine ⟨?_, ?_, ?_⟩
  · intro lk fd c
    unfold CampaignViewDeaddropTab.format_row_data
    cases lk c.deployment_id <;> simp
  · intro lk fd cr
    unfold CampaignViewCredentialsTab.format_row_data
    cases lk cr.message_id <;> simp
  · intro α table fmt rid rows
    exact ⟨routineLoop_deletedIds_nodestroy table fmt rid rows 0,
      routineLoop_appendedRows_nodestroy table fmt rid rows 0,
      fun destroyed k => routineLoop_deletedIds_subset table fmt rid destroyed rows k⟩

/-- The password-column visibility after any operation sequence equals the
`active` state of the last show-passwords toggle in it. -/
theorem applyOps_password_visibility (ops : List CredOp) :
    ∀ s : CredentialsTab, (s.applyOps ops).passwordColumnVisible
      = lastToggleState ops s.passwordColumnVisible := by
  induction ops with
  | nil => intro s; rfl
  | cons op rest ih =>
    intro s
    cases op with
    | load now force => exact ih _
    | promptDelete sel conf now => exact ih _
    | exportCsv resp => exact ih _
    | destroy => exact ih _
    | toggleShowPasswords a => exact ih _

/-- C10: the credentials tab's password-column renderer is invisible right
after construction, the show-passwords toggle sets its visibility to the
button's `active` state, and no other tab operation changes it — after any
operation sequence the visibility equals the last toggle state (or `false`
when no toggle occurred). -/
theorem password_column_visibility (freq : Int) (ops : List CredOp)
    (s : CredentialsTab) (active : Bool) :
    (CredentialsTab.init freq).passwordColumnVisible = false ∧
    (s.signal_button_toggled_show_passwords active).passwordColumnVisible = active ∧
    ((CredentialsTab.init freq).applyOps ops).passwordColumnVisible
      = lastToggleState ops false := by
  refine ⟨rfl, rfl, ?_⟩
  exact applyOps_password_visibility ops (CredentialsTab.init freq)

end Campaign
